import Mathlib

/-
Verification of the tag-generation pipeline of the betteraskprompt backend
(src/routes/tags.ts, the implementation containing generateWithFallback,
the result cache and the quota filler).

The TypeScript source is shallowly embedded below: each definition mirrors
one function or inline block of the route file, keeping the source names
where Lean allows it.  Machine integers are modelled as Nat (the source only
ever compares and subtracts timestamps and lengths), JS Map as an
association list, and the two generative providers as explicit call-result
parameters fed to the fallback chain.
-/

set_option autoImplicit false

namespace BetterAskPrompt

/-! ## JS string primitives used by the route

The validator uses tag.replace with the character class of everything that
is neither a word character nor whitespace, String.prototype.trim, and
String.prototype.split on runs of whitespace.  We model the ASCII part of
the JS classes, which covers every string in the repository. -/

/-- The ASCII whitespace characters of the JS regex class for whitespace. -/
def isJsSpace (c : Char) : Bool :=
  c = ' ' || c = '\t' || c = '\n' || c = '\r' || c = '\x0b' || c = '\x0c'

/-- A JS word character: letter, digit or underscore. -/
def isWordChar (c : Char) : Bool :=
  c.isAlphanum || c = '_'

/-- tag.replace of every character that is neither a word character nor
whitespace by the empty string. -/
def stripNonWordSpace (s : String) : String :=
  ⟨s.data.filter (fun c => isWordChar c || isJsSpace c)⟩

/-- String.prototype.trim: drop whitespace from both ends. -/
def trimJs (s : String) : String :=
  ⟨((s.data.dropWhile isJsSpace).reverse.dropWhile isJsSpace).reverse⟩

/-- The cleanTag computation of the route: strip punctuation, then trim. -/
def normalizeTag (s : String) : String :=
  trimJs (stripNonWordSpace s)

/-- Maximal runs of non-whitespace characters, accumulator form. -/
def splitRunsAux : List Char → List Char → List (List Char)
  | [], acc => if acc.isEmpty then [] else [acc.reverse]
  | c :: cs, acc =>
    if isJsSpace c then
      if acc.isEmpty then splitRunsAux cs [] else acc.reverse :: splitRunsAux cs []
    else
      splitRunsAux cs (c :: acc)

/-- String.prototype.split on runs of whitespace, as applied by the route to
an already-trimmed string: the empty string yields a singleton list holding
the empty string (JS behaviour), any other trimmed string yields its maximal
runs of non-whitespace characters. -/
def jsSplitWs (s : String) : List String :=
  if s.isEmpty then [""] else (splitRunsAux s.data []).map (fun l => ⟨l⟩)

/-- JS String.prototype.includes: substring test.  startsWithChars checks
that the pattern sits at the head of the text. -/
def startsWithChars : List Char → List Char → Bool
  | [], _ => true
  | _ :: _, [] => false
  | p :: ps, c :: cs => p = c && startsWithChars ps cs

/-- hasSubstr text pat: pat occurs somewhere in text. -/
def hasSubstr : List Char → List Char → Bool
  | [], pat => pat.isEmpty
  | c :: cs, pat => startsWithChars pat (c :: cs) || hasSubstr cs pat

/-- message.includes(pat) of the source. -/
def strIncludes (s pat : String) : Bool :=
  hasSubstr s.data pat.data

/-! ## ResponseValidator (validateTags of the /generate route) -/

/-- The word-count test of validateTags: clean the tag, split on whitespace,
require between 3 and 4 words. -/
def wordCountOk (tag : String) : Bool :=
  let words := jsSplitWs (normalizeTag tag)
  3 ≤ words.length && words.length ≤ 4

/-- validateTags of the route: keep the tags whose cleaned form has 3 or 4
words, and return the cleaned forms. -/
def validateTags (tags : List String) : List String :=
  (tags.filter wordCountOk).map normalizeTag

/-- The grouped JSON shape requested from the provider: five named string
arrays.  Used both for the parsed provider output and for the validated
groups object of the response. -/
structure ParsedGroups where
  personaStyle : List String
  addContext : List String
  taskInstruction : List String
  formatConstraints : List String
  reasoningHelp : List String
deriving DecidableEq

/-- The groups object of the route: validateTags applied to every field. -/
def validateGroups (p : ParsedGroups) : ParsedGroups :=
  ⟨validateTags p.personaStyle, validateTags p.addContext,
   validateTags p.taskInstruction, validateTags p.formatConstraints,
   validateTags p.reasoningHelp⟩

/-- allTags of the route: the five groups spread into one array, in field
order. -/
def flattenGroups (g : ParsedGroups) : List String :=
  g.personaStyle ++ g.addContext ++ g.taskInstruction ++
    g.formatConstraints ++ g.reasoningHelp

/-! ## Static fallback dataset and QuotaFiller -/

/-- FALLBACK_TAGS of the route with the fallback chain. -/
def FALLBACK_TAGS : List String :=
  ["Explain Step By Step",
   "Give Real World Examples",
   "Use Simple Language",
   "Format As Bullet Points",
   "Include Practice Questions",
   "Act As Expert Tutor",
   "Focus On Key Concepts",
   "Avoid Technical Jargon"]

/-- The quota-fill block of the route applied to the already
exclusion-filtered batch: when the batch is short, append fallback entries
not excluded and not already present, up to the missing number; finally
slice to the requested count. -/
def fillQuota (count : Nat) (existingTags batch : List String) : List String :=
  let filled :=
    if batch.length < count then
      let needed := count - batch.length
      let availableFallbacks :=
        FALLBACK_TAGS.filter (fun t => !(existingTags.contains t) && !(batch.contains t))
      batch ++ availableFallbacks.take needed
    else batch
  filled.take count

/-- finalTags of the route: filter the flattened tags against the exclusion
set, then fill the quota from the static dataset. -/
def buildFinalTags (count : Nat) (existingTags allTags : List String) : List String :=
  fillQuota count existingTags (allTags.filter (fun t => !(existingTags.contains t)))

/-! ## ErrorClassifier and FallbackChain (generateWithFallback) -/

/-- A provider failure as the chain inspects it: the optional numeric status
and the message string of the thrown error object. -/
structure GenError where
  status : Option Nat
  message : String
deriving DecidableEq

/-- Outcome of one outbound provider call, supplied to the chain as data:
the call either produced a value or threw a classified error. -/
inductive CallResult (α : Type) where
  | ok (value : α)
  | err (error : GenError)
deriving DecidableEq

/-- The tier-advance test of generateWithFallback: status 429 or 503, or a
message containing quota, rate limit or overloaded. -/
def isRetriableGemini (e : GenError) : Bool :=
  e.status == some 429 || e.status == some 503 ||
    strIncludes e.message "quota" ||
    strIncludes e.message "rate limit" ||
    strIncludes e.message "overloaded"

/-- The value a successful chain hands back to the route: the Gemini result
text (possibly missing) for tiers 1 and 2, or the already-parsed JSON object
for the OpenAI tier. -/
inductive ChainValue where
  | gemini (text : Option String)
  | openai (json : ParsedGroups)
deriving DecidableEq

/-- The three generative attempt points of the chain. -/
inductive Tier where
  | tier1
  | tier2
  | tier3
deriving DecidableEq

/-- Result of running the chain: the ordered list of tiers that were
actually called, and either a value or the error the chain throws to the
route handler. -/
structure ChainResult where
  attempts : List Tier
  outcome : Except GenError ChainValue

/-- The OpenAI stage of generateWithFallback: when the OpenAI client is
configured, call it; on its success return its parsed JSON, on its failure
(or with no client) throw geminiError, the last Gemini error bound by the
inner catch. -/
def openAiStage (openaiConfigured : Bool) (tier3 : CallResult ParsedGroups)
    (attempted : List Tier) (geminiError : GenError) : ChainResult :=
  if openaiConfigured then
    match tier3 with
    | .ok json => ⟨attempted ++ [.tier3], .ok (.openai json)⟩
    | .err _ => ⟨attempted ++ [.tier3], .error geminiError⟩
  else
    ⟨attempted, .error geminiError⟩

/-- generateWithFallback of the route file.  Tier 1 is the primary Gemini
model; on a retriable tier-1 failure the lighter Gemini model is tried once,
and the error bound by the inner catch (the tier-2 error when tier 2 ran,
else the tier-1 error) is what the OpenAI stage rethrows on total failure. -/
def generateWithFallback (openaiConfigured : Bool)
    (tier1 tier2 : CallResult (Option String))
    (tier3 : CallResult ParsedGroups) : ChainResult :=
  match tier1 with
  | .ok text => ⟨[.tier1], .ok (.gemini text)⟩
  | .err e1 =>
    if isRetriableGemini e1 then
      match tier2 with
      | .ok text => ⟨[.tier1, .tier2], .ok (.gemini text)⟩
      | .err e2 => openAiStage openaiConfigured tier3 [.tier1, .tier2] e2
    else
      openAiStage openaiConfigured tier3 [.tier1] e1

/-! ## ResultCache -/

/-- A cache entry: the stored payload and the Date.now() stamp at write
time. -/
structure CacheEntry (α : Type) where
  data : α
  timestamp : Nat
deriving DecidableEq

/-- CACHE_TTL_MS of the route: ten minutes. -/
def CACHE_TTL_MS : Nat := 10 * 60 * 1000

/-- The process-wide Map of the route, modelled as an association list with
at most one live entry per key. -/
abbrev Cache (α : Type) := List (String × CacheEntry α)

/-- cache.get(key): the first entry stored under the key. -/
def cacheFind {α : Type} (c : Cache α) (k : String) : Option (CacheEntry α) :=
  (c.find? (fun p => p.1 == k)).map Prod.snd

/-- cache.delete(key). -/
def cacheDelete {α : Type} (c : Cache α) (k : String) : Cache α :=
  c.filter (fun p => !(p.1 == k))

/-- cache.set(key, entry): overwrite any entry under the key. -/
def cacheSet {α : Type} (c : Cache α) (k : String) (e : CacheEntry α) : Cache α :=
  (k, e) :: cacheDelete c k

/-- The inline cache-check block shared by both routes: a found entry whose
age is strictly below the TTL is served; a found entry at or past the TTL is
deleted and treated as a miss. -/
def cacheLookup {α : Type} (now : Nat) (c : Cache α) (k : String) :
    Option α × Cache α :=
  match cacheFind c k with
  | none => (none, c)
  | some e =>
    if now - e.timestamp < CACHE_TTL_MS then (some e.data, c)
    else (none, cacheDelete c k)

/-! ## The /generate route handler -/

/-- The request body fields the /generate route reads.  Absent string
fields are modelled as the empty string, which is exactly the JS falsiness
the validation check tests. -/
structure GenRequest where
  topic : String
  intent : String
  persona : String
  stage : Nat
  selectedTags : List String
  visibleTags : List String
deriving DecidableEq

/-- cacheKey of the /generate route. -/
def cacheKey (r : GenRequest) : String :=
  r.topic ++ ":" ++ r.intent ++ ":" ++ r.persona ++ ":7tags"

/-- The JSON body the route sends back.  Fields the source omits on a given
path are modelled by none, the empty list or false. -/
structure GenResponse where
  httpStatus : Nat
  success : Bool
  tags : List String
  groups : Option ParsedGroups
  fallback : Bool
  message : Option String
deriving DecidableEq

/-- The spread of a JS Set built from a list: first occurrences in order. -/
def dedupFirst : List String → List String
  | [] => []
  | a :: l => a :: dedupFirst (l.filter (fun b => !(b == a)))
termination_by l => l.length
decreasing_by
  simp only [List.length_cons]
  exact Nat.lt_succ_of_le (List.length_filter_le _ _)

/-- The requested tag count of the route (count, fixed to 7). -/
def REQUIRED_COUNT : Nat := 7

/-- The response the catch handler and the unconfigured branch send:
success true, the first seven static tags, fallback true. -/
def staticFallbackResponse (msg : String) : GenResponse :=
  { httpStatus := 200, success := true, tags := FALLBACK_TAGS.take 7,
    groups := none, fallback := true, message := some msg }

/-- The parse step of the route after the chain succeeds: a Gemini result
with no text throws, Gemini text goes through JSON.parse (modelled by the
parseJson of the environment), an OpenAI result is already parsed. -/
def parseChainValue (parseJson : String → Option ParsedGroups) :
    ChainValue → Option ParsedGroups
  | .gemini none => none
  | .gemini (some s) => parseJson s
  | .openai g => some g

/-- Everything outside the route that a single request observes: which
clients were constructed from credentials, what each outbound call would
return, the JSON parser, and the current clock. -/
structure GenEnv where
  geminiConfigured : Bool
  openaiConfigured : Bool
  tier1 : CallResult (Option String)
  tier2 : CallResult (Option String)
  tier3 : CallResult ParsedGroups
  parseJson : String → Option ParsedGroups
  now : Nat

/-- The body of the /generate route after the cache check came back empty:
the unconfigured-key branch, the fallback chain, parsing, validation,
exclusion filtering, quota fill and the cache write of the success path.
cache1 is the cache as the lookup left it. -/
def generateCore (env : GenEnv) (req : GenRequest) (cache1 : Cache GenResponse) :
    GenResponse × Cache GenResponse :=
  if !env.geminiConfigured then
    (staticFallbackResponse "Gemini API not configured", cache1)
  else
    let existingTags := dedupFirst (req.selectedTags ++ req.visibleTags)
    let chain := generateWithFallback env.openaiConfigured env.tier1 env.tier2 env.tier3
    match chain.outcome with
    | .error e => (staticFallbackResponse e.message, cache1)
    | .ok v =>
      match parseChainValue env.parseJson v with
      | none => (staticFallbackResponse "No response text received from Gemini", cache1)
      | some parsed =>
        let groups := validateGroups parsed
        let allTags := flattenGroups groups
        let finalTags := buildFinalTags REQUIRED_COUNT existingTags allTags
        let responseData : GenResponse :=
          { httpStatus := 200, success := true, tags := finalTags,
            groups := some groups, fallback := false, message := none }
        (responseData, cacheSet cache1 (cacheKey req) ⟨responseData, env.now⟩)

/-- The /generate route handler: field validation, cache check with lazy
expiry, then the generation body.  Returns the response sent and the cache
state after the request. -/
def handleGenerate (env : GenEnv) (req : GenRequest) (cache : Cache GenResponse) :
    GenResponse × Cache GenResponse :=
  if req.topic = "" ∨ req.intent = "" ∨ req.persona = "" then
    ({ httpStatus := 400, success := false, tags := [], groups := none,
       fallback := false, message := some "Missing required fields" }, cache)
  else
    let looked := cacheLookup env.now cache (cacheKey req)
    match looked.1 with
    | some data => (data, looked.2)
    | none => generateCore env req looked.2

/-! ## Theorems -/

/-- C9: For every list of raw tags, the validator strips all non-word and
non-space characters, trims, splits on whitespace, and keeps exactly those
entries whose resulting word count lies in the closed interval from 3 to 4;
in particular a batch containing tags of 2, 3, 4 and 5 words retains only
the 3- and 4-word entries. -/
theorem c9_word_count_validation :
    (∀ (ts : List String) (t : String),
        t ∈ validateTags ts ↔
          ∃ s, s ∈ ts ∧ 3 ≤ (jsSplitWs (normalizeTag s)).length ∧
            (jsSplitWs (normalizeTag s)).length ≤ 4 ∧ normalizeTag s = t) ∧
    validateTags ["Use Diagram", "Explain Key Steps", "Give Real World Examples",
        "Explain All The Key Steps"] =
      ["Explain Key Steps", "Give Real World Examples"] := by
  constructor
  · intro ts t
    simp only [validateTags, wordCountOk, List.mem_map, List.mem_filter,
      Bool.and_eq_true, decide_eq_true_eq]
    constructor
    · rintro ⟨s, ⟨hs, h3, h4⟩, rfl⟩
      exact ⟨s, hs, h3, h4, rfl⟩
    · rintro ⟨s, hs, h3, h4, rfl⟩
      exact ⟨s, ⟨hs, h3, h4⟩, rfl⟩
  · rfl

/-- C9 witness: a concrete 3-word tag is kept by the validator. -/
theorem c9_word_count_validation_witness :
    "Explain Key Steps" ∈ validateTags ["Use Diagram", "Explain Key Steps"] :=
  (c9_word_count_validation.1 ["Use Diagram", "Explain Key Steps"]
      "Explain Key Steps").mpr
    ⟨"Explain Key Steps", by decide, by decide, by decide, rfl⟩

/-- C5 counterexample: two requests that differ in the exclusion set
(selectedTags), a field that changes the content of the expected output,
are mapped to the same cache key, refuting the claim that any
content-affecting difference yields different keys. -/
theorem c5_cache_key_counterexample :
    cacheKey ⟨"Photosynthesis", "learn", "Students", 1, ["Explain Step By Step"], []⟩ =
      cacheKey ⟨"Photosynthesis", "learn", "Students", 1, [], []⟩ ∧
    (GenRequest.mk "Photosynthesis" "learn" "Students" 1 ["Explain Step By Step"] []).selectedTags ≠
      (GenRequest.mk "Photosynthesis" "learn" "Students" 1 [] []).selectedTags :=
  ⟨rfl, by decide⟩

/-- C5 amended: the cache key of the /generate route concatenates exactly
topic, intent and persona with the separator and the constant suffix 7tags;
two requests agreeing on these three fields share a key regardless of
stage, selectedTags and visibleTags. -/
theorem c5_cache_key_amended (r1 r2 : GenRequest)
    (ht : r1.topic = r2.topic) (hi : r1.intent = r2.intent)
    (hp : r1.persona = r2.persona) :
    cacheKey r1 = cacheKey r2 := by
  simp only [cacheKey, ht, hi, hp]

/-- C5 amended witness: requests differing only in stage and the tag lists
share a key. -/
theorem c5_cache_key_amended_witness :
    cacheKey ⟨"Algebra", "learn", "Students", 1, ["Explain Step By Step"], []⟩ =
      cacheKey ⟨"Algebra", "learn", "Students", 2, [], ["Use Simple Language"]⟩ :=
  c5_cache_key_amended _ _ rfl rfl rfl

/-- C3 (code bug): when Tier 1 fails with a retriable error and Tier 2 is
attempted and also fails, the chain with no Tier-3 provider returns the
Tier-2 error, not the original Tier-1 error, contradicting the claim and
the inline comment of the source about throwing the original error. -/
theorem c3_original_error_code_bug :
    (generateWithFallback false
        (CallResult.err ⟨some 429, "Resource exhausted: check quota"⟩)
        (CallResult.err ⟨some 401, "API key not valid"⟩)
        (CallResult.err ⟨none, "unused"⟩)).outcome =
      Except.error ⟨some 401, "API key not valid"⟩ ∧
    (⟨some 401, "API key not valid"⟩ : GenError) ≠
      ⟨some 429, "Resource exhausted: check quota"⟩ :=
  ⟨rfl, by decide⟩

/-- Attempt list of the chain when Tier 1 succeeds. -/
theorem gwfAttemptsOk (cfg : Bool) (text : Option String)
    (t2 : CallResult (Option String)) (t3 : CallResult ParsedGroups) :
    (generateWithFallback cfg (CallResult.ok text) t2 t3).attempts = [Tier.tier1] := rfl

/-- Attempt list when Tier 1 fails retriably and Tier 2 succeeds. -/
theorem gwfAttemptsRetriableOk (cfg : Bool) (e1 : GenError) (text2 : Option String)
    (t3 : CallResult ParsedGroups) (h : isRetriableGemini e1 = true) :
    (generateWithFallback cfg (CallResult.err e1) (CallResult.ok text2) t3).attempts =
      [Tier.tier1, Tier.tier2] := by
  simp [generateWithFallback, h]

/-- Attempt list when Tier 1 fails retriably and Tier 2 fails. -/
theorem gwfAttemptsRetriableErr (cfg : Bool) (e1 e2 : GenError)
    (t3 : CallResult ParsedGroups) (h : isRetriableGemini e1 = true) :
    (generateWithFallback cfg (CallResult.err e1) (CallResult.err e2) t3).attempts =
      [Tier.tier1, Tier.tier2] ++ (if cfg = true then [Tier.tier3] else []) := by
  cases cfg <;> cases t3 <;> simp [generateWithFallback, openAiStage, h]

/-- Attempt list when Tier 1 fails non-retriably: Tier 2 is skipped. -/
theorem gwfAttemptsNotRetriable (cfg : Bool) (e1 : GenError)
    (t2 : CallResult (Option String)) (t3 : CallResult ParsedGroups)
    (h : isRetriableGemini e1 = false) :
    (generateWithFallback cfg (CallResult.err e1) t2 t3).attempts =
      [Tier.tier1] ++ (if cfg = true then [Tier.tier3] else []) := by
  cases cfg <;> cases t3 <;> simp [generateWithFallback, openAiStage, h]

/-- C1: the chain attempts Tier 2 exactly once, directly after Tier 1 and
before any Tier 3, precisely when the Tier-1 failure has status 429 or 503
or a quota, rate limit or overloaded message; any other Tier-1 failure
skips Tier 2 and proceeds directly to Tier 3 when configured, else to the
terminal error; no tier is attempted more than once and the tier order is
never changed. -/
theorem c1_tier_advancement (cfg : Bool) (t1 t2 : CallResult (Option String))
    (t3 : CallResult ParsedGroups) :
    (generateWithFallback cfg t1 t2 t3).attempts.Nodup ∧
    List.Sublist (generateWithFallback cfg t1 t2 t3).attempts [Tier.tier1, Tier.tier2, Tier.tier3] ∧
    (∀ e, t1 = CallResult.err e →
      (isRetriableGemini e = true →
        [Tier.tier1, Tier.tier2] <+: (generateWithFallback cfg t1 t2 t3).attempts) ∧
      (isRetriableGemini e = false →
        Tier.tier2 ∉ (generateWithFallback cfg t1 t2 t3).attempts ∧
        (generateWithFallback cfg t1 t2 t3).attempts =
          Tier.tier1 :: (if cfg = true then [Tier.tier3] else []))) := by
  cases t1 with
  | ok text =>
    rw [gwfAttemptsOk]
    refine ⟨by decide, by decide, ?_⟩
    intro e he
    exact absurd he (by simp)
  | err e1 =>
    by_cases h : isRetriableGemini e1 = true
    · cases t2 with
      | ok text2 =>
        rw [gwfAttemptsRetriableOk cfg e1 text2 t3 h]
        refine ⟨by decide, by decide, ?_⟩
        intro e he
        injection he with he'
        subst he'
        exact ⟨fun _ => ⟨[], rfl⟩, fun hf => absurd h (by simp [hf])⟩
      | err e2 =>
        rw [gwfAttemptsRetriableErr cfg e1 e2 t3 h]
        refine ⟨by cases cfg <;> decide, by cases cfg <;> decide, ?_⟩
        intro e he
        injection he with he'
        subst he'
        exact ⟨fun _ => ⟨(if cfg = true then [Tier.tier3] else []), rfl⟩,
               fun hf => absurd h (by simp [hf])⟩
    · rw [Bool.not_eq_true] at h
      rw [gwfAttemptsNotRetriable cfg e1 t2 t3 h]
      refine ⟨by cases cfg <;> decide, by cases cfg <;> decide, ?_⟩
      intro e he
      injection he with he'
      subst he'
      exact ⟨fun ht => absurd ht (by simp [h]),
             fun _ => ⟨by cases cfg <;> decide, rfl⟩⟩

/-- C8: a cache get returns the stored payload exactly when the found entry
has age strictly below the TTL; an entry found at or past the TTL is a miss
and is deleted as a side effect; a lookup that finds nothing, or finds a
valid entry, leaves the cache unchanged. -/
theorem c8_cache_ttl_invariant {α : Type} (now : Nat) (c : Cache α) (k : String) :
    (∀ p, (cacheLookup now c k).1 = some p ↔
        ∃ e, cacheFind c k = some e ∧ now - e.timestamp < CACHE_TTL_MS ∧ e.data = p) ∧
    (∀ e, cacheFind c k = some e → now - e.timestamp < CACHE_TTL_MS →
        cacheLookup now c k = (some e.data, c)) ∧
    (∀ e, cacheFind c k = some e → CACHE_TTL_MS ≤ now - e.timestamp →
        cacheLookup now c k = (none, cacheDelete c k)) ∧
    (cacheFind c k = none → cacheLookup now c k = (none, c)) := by
  refine ⟨?_, ?_, ?_, ?_⟩
  · intro p
    constructor
    · intro hp
      cases hf : cacheFind c k with
      | none => simp [cacheLookup, hf] at hp
      | some e =>
        simp only [cacheLookup, hf] at hp
        by_cases ht : now - e.timestamp < CACHE_TTL_MS
        · rw [if_pos ht] at hp
          exact ⟨e, rfl, ht, Option.some_injective _ hp⟩
        · rw [if_neg ht] at hp
          simp at hp
    · rintro ⟨e, hf, ht, rfl⟩
      simp only [cacheLookup, hf, if_pos ht]
  · intro e hf ht
    simp only [cacheLookup, hf, if_pos ht]
  · intro e hf ht
    simp only [cacheLookup, hf, if_neg (Nat.not_lt.mpr ht)]
  · intro hf
    simp only [cacheLookup, hf]

/-- C8 witness: an entry whose age equals the TTL is a miss and is removed
from the cache. -/
theorem c8_cache_ttl_invariant_witness :
    cacheLookup CACHE_TTL_MS [("k", (⟨5, 0⟩ : CacheEntry Nat))] "k" =
      (none, cacheDelete [("k", (⟨5, 0⟩ : CacheEntry Nat))] "k") :=
  (c8_cache_ttl_invariant CACHE_TTL_MS [("k", (⟨5, 0⟩ : CacheEntry Nat))] "k").2.2.1
    ⟨5, 0⟩ rfl (by decide)

/-- C7: the quota filler never exceeds the required count: a batch at or
above the count is truncated to exactly the count preserving order, and a
short batch is extended with static dataset entries in dataset order,
skipping entries already present in the batch or in the exclusion set,
reaching the count when the dataset suffices and stopping short when it is
exhausted (never an error). -/
theorem c7_quota_fill (count : Nat) (ex batch : List String) :
    (fillQuota count ex batch).length ≤ count ∧
    (count ≤ batch.length → fillQuota count ex batch = batch.take count) ∧
    (batch.length < count →
      fillQuota count ex batch =
        batch ++ (FALLBACK_TAGS.filter
          (fun t => !(ex.contains t) && !(batch.contains t))).take (count - batch.length) ∧
      List.Sublist ((FALLBACK_TAGS.filter
          (fun t => !(ex.contains t) && !(batch.contains t))).take (count - batch.length))
        FALLBACK_TAGS ∧
      (∀ t ∈ (FALLBACK_TAGS.filter
          (fun t => !(ex.contains t) && !(batch.contains t))).take (count - batch.length),
        ex.contains t = false ∧ batch.contains t = false) ∧
      (fillQuota count ex batch).length =
        min count (batch.length + (FALLBACK_TAGS.filter
          (fun t => !(ex.contains t) && !(batch.contains t))).length)) := by
  refine ⟨?_, ?_, ?_⟩
  · simp only [fillQuota]
    rw [List.length_take]
    exact Nat.min_le_left _ _
  · intro h
    simp only [fillQuota, if_neg (Nat.not_lt.mpr h)]
  · intro h
    have hlen : (batch ++ (FALLBACK_TAGS.filter
        (fun t => !(ex.contains t) && !(batch.contains t))).take (count - batch.length)).length
        ≤ count := by
      rw [List.length_append, List.length_take]
      omega
    have heq : fillQuota count ex batch =
        batch ++ (FALLBACK_TAGS.filter
          (fun t => !(ex.contains t) && !(batch.contains t))).take (count - batch.length) := by
      simp only [fillQuota, if_pos h]
      exact List.take_of_length_le hlen
    refine ⟨heq, ((FALLBACK_TAGS.filter _).take_sublist _).trans (FALLBACK_TAGS.filter_sublist),
      ?_, ?_⟩
    · intro t htmem
      have hmem := List.mem_filter.mp (List.take_subset _ _ htmem)
      have hpred := hmem.2
      rw [Bool.and_eq_true, Bool.not_eq_true', Bool.not_eq_true'] at hpred
      exact hpred
    · rw [heq, List.length_append, List.length_take]
      omega

/-- C7 witness: a batch of two with required count five is extended by
exactly three dataset entries in dataset order. -/
theorem c7_quota_fill_witness :
    fillQuota 5 [] ["Ask Three Short Questions", "Use Plant Diagram Here"] =
      ["Ask Three Short Questions", "Use Plant Diagram Here"] ++
        (FALLBACK_TAGS.filter (fun t => !(([] : List String).contains t) &&
          !((["Ask Three Short Questions", "Use Plant Diagram Here"]).contains t))).take 3 :=
  ((c7_quota_fill 5 [] ["Ask Three Short Questions", "Use Plant Diagram Here"]).2.2
    (by decide)).1

/-- C1 witness: a 429 Tier-1 failure makes the chain attempt Tier 2
immediately after Tier 1. -/
theorem c1_tier_advancement_witness :
    [Tier.tier1, Tier.tier2] <+:
      (generateWithFallback true
        (CallResult.err ⟨some 429, "quota exceeded"⟩)
        (CallResult.err ⟨some 401, "bad key"⟩)
        (CallResult.err ⟨none, "unused"⟩)).attempts :=
  ((c1_tier_advancement true
      (CallResult.err ⟨some 429, "quota exceeded"⟩)
      (CallResult.err ⟨some 401, "bad key"⟩)
      (CallResult.err ⟨none, "unused"⟩)).2.2
    ⟨some 429, "quota exceeded"⟩ rfl).1 (by decide)

/-- On a valid request whose cache lookup misses, the handler runs the
generation body on the cache the lookup left behind. -/
theorem handleGenerate_miss (env : GenEnv) (req : GenRequest) (cache : Cache GenResponse)
    (hvalid : ¬(req.topic = "" ∨ req.intent = "" ∨ req.persona = ""))
    (hmiss : (cacheLookup env.now cache (cacheKey req)).1 = none) :
    handleGenerate env req cache =
      generateCore env req (cacheLookup env.now cache (cacheKey req)).2 := by
  unfold handleGenerate
  rw [if_neg hvalid]
  simp only [hmiss]

/-- The quota filler only ever produces entries of the batch or of the
static dataset, in their given order. -/
theorem fillQuota_sublist (count : Nat) (ex batch : List String) :
    List.Sublist (fillQuota count ex batch) (batch ++ FALLBACK_TAGS) := by
  simp only [fillQuota]
  by_cases h : batch.length < count
  · rw [if_pos h]
    refine (List.take_sublist _ _).trans ?_
    exact ((List.take_sublist _ _).trans (List.filter_sublist _)).append_left batch
  · rw [if_neg h]
    exact (List.take_sublist _ _).trans (List.sublist_append_left _ _)

/-- If the batch avoids the exclusion set then so does the filled batch. -/
theorem fillQuota_not_excluded (count : Nat) (ex batch : List String)
    (hb : ∀ t ∈ batch, ex.contains t = false) :
    ∀ t ∈ fillQuota count ex batch, ex.contains t = false := by
  intro t ht
  simp only [fillQuota] at ht
  have ht' := List.take_subset _ _ ht
  by_cases h : batch.length < count
  · rw [if_pos h] at ht'
    rcases List.mem_append.mp ht' with hm | hm
    · exact hb t hm
    · have hmem := List.mem_filter.mp (List.take_subset _ _ hm)
      have hpred := hmem.2
      rw [Bool.and_eq_true, Bool.not_eq_true', Bool.not_eq_true'] at hpred
      exact hpred.1
  · rw [if_neg h] at ht'
    exact hb t ht'

/-- C6 counterexample: the provider returning the same valid tag in two
groups, with an empty exclusion set, yields a final batch containing that
tag twice: exact duplicates within a batch are not removed. -/
theorem c6_dedup_counterexample :
    (buildFinalTags 7 [] (flattenGroups (validateGroups
        ⟨["Act As Friendly Teacher"], ["Act As Friendly Teacher"], [], [], []⟩))).count
        "Act As Friendly Teacher" = 2 ∧
    ¬ (buildFinalTags 7 [] (flattenGroups (validateGroups
        ⟨["Act As Friendly Teacher"], ["Act As Friendly Teacher"], [], [], []⟩))).Nodup := by
  exact ⟨rfl, by decide⟩

/-- C6 amended: the final batch contains no entry exactly equal to a member
of the exclusion set, and is an order-preserving selection from the
validated flattened provider output (earlier groups first) followed by the
static dataset; duplicates coming from the provider are not removed. -/
theorem c6_exclusion_and_order (parsed : ParsedGroups) (existing : List String) :
    (∀ t ∈ buildFinalTags REQUIRED_COUNT existing (flattenGroups (validateGroups parsed)),
        existing.contains t = false) ∧
    List.Sublist (buildFinalTags REQUIRED_COUNT existing (flattenGroups (validateGroups parsed)))
      (((flattenGroups (validateGroups parsed)).filter (fun t => !(existing.contains t)))
        ++ FALLBACK_TAGS) := by
  constructor
  · simp only [buildFinalTags]
    apply fillQuota_not_excluded
    intro t ht
    have hmem := List.mem_filter.mp ht
    have hpred := hmem.2
    rw [Bool.not_eq_true'] at hpred
    exact hpred
  · simp only [buildFinalTags]
    exact fillQuota_sublist _ _ _

/-- C6 amended witness: an excluded tag is indeed absent from a concrete
final batch. -/
theorem c6_exclusion_and_order_witness :
    (["Explain Step By Step"] : List String).contains "Act As Friendly Teacher" = false :=
  (c6_exclusion_and_order ⟨["Act As Friendly Teacher"], [], [], [], []⟩
      ["Explain Step By Step"]).1 "Act As Friendly Teacher" (by decide)

/-- C2 counterexample: Tier 2 (a tier beyond the primary) produces the
returned tags, yet the response reports fallback = false, refuting the
claimed equivalence. -/
theorem c2_fallback_flag_counterexample :
    (generateWithFallback false (CallResult.err ⟨some 429, "quota exceeded"⟩)
        (CallResult.ok (some "payload")) (CallResult.err ⟨none, "unused"⟩)).attempts =
      [Tier.tier1, Tier.tier2] ∧
    (handleGenerate
        { geminiConfigured := true, openaiConfigured := false,
          tier1 := CallResult.err ⟨some 429, "quota exceeded"⟩,
          tier2 := CallResult.ok (some "payload"),
          tier3 := CallResult.err ⟨none, "unused"⟩,
          parseJson := fun _ => some ⟨["Act As Friendly Teacher"], [], [], [], []⟩,
          now := 0 }
        ⟨"Photosynthesis", "learn", "Students", 1, [], []⟩ []).1.fallback = false := by
  exact ⟨rfl, rfl⟩

/-- C2 amended: on a valid, cache-missing request the response reports
fallback = true exactly when the static dataset alone produced it — no
provider key, total failure of the chain, or unparseable chain output; a
response produced through Tier 2 or Tier 3, or padded by quota-filling,
reports fallback = false. -/
theorem c2_fallback_flag_amended (env : GenEnv) (req : GenRequest) (cache : Cache GenResponse)
    (hvalid : ¬(req.topic = "" ∨ req.intent = "" ∨ req.persona = ""))
    (hmiss : (cacheLookup env.now cache (cacheKey req)).1 = none) :
    ((handleGenerate env req cache).1.fallback = true ↔
      env.geminiConfigured = false ∨
      (∃ e, (generateWithFallback env.openaiConfigured env.tier1 env.tier2 env.tier3).outcome =
          Except.error e) ∨
      (∃ v, (generateWithFallback env.openaiConfigured env.tier1 env.tier2 env.tier3).outcome =
          Except.ok v ∧ parseChainValue env.parseJson v = none)) := by
  rw [handleGenerate_miss env req cache hvalid hmiss]
  cases hcfg : env.geminiConfigured with
  | false => simp [generateCore, hcfg, staticFallbackResponse]
  | true =>
    cases houtcome : (generateWithFallback env.openaiConfigured env.tier1
        env.tier2 env.tier3).outcome with
    | error e => simp [generateCore, hcfg, houtcome, staticFallbackResponse]
    | ok v =>
      cases hp : parseChainValue env.parseJson v with
      | none => simp [generateCore, hcfg, houtcome, hp, staticFallbackResponse]
      | some parsed => simp [generateCore, hcfg, houtcome, hp]

/-- C2 amended witness: with no provider key the response reports
fallback = true. -/
theorem c2_fallback_flag_amended_witness :
    (handleGenerate
        { geminiConfigured := false, openaiConfigured := false,
          tier1 := CallResult.err ⟨none, "no"⟩, tier2 := CallResult.err ⟨none, "no"⟩,
          tier3 := CallResult.err ⟨none, "no"⟩, parseJson := fun _ => none, now := 0 }
        ⟨"Photosynthesis", "learn", "Students", 1, [], []⟩ []).1.fallback = true :=
  (c2_fallback_flag_amended
      { geminiConfigured := false, openaiConfigured := false,
        tier1 := CallResult.err ⟨none, "no"⟩, tier2 := CallResult.err ⟨none, "no"⟩,
        tier3 := CallResult.err ⟨none, "no"⟩, parseJson := fun _ => none, now := 0 }
      ⟨"Photosynthesis", "learn", "Students", 1, [], []⟩ []
      (by decide) rfl).mpr (Or.inl rfl)

/-- C4: on a valid request with no provider credential and no cached entry,
the response is success = true, fallback = true, with the static dataset
slice of the required count as tags — never an error response and never a
success with empty tags. -/
theorem c4_unconfigured_static (env : GenEnv) (req : GenRequest) (cache : Cache GenResponse)
    (hcfg : env.geminiConfigured = false)
    (hvalid : ¬(req.topic = "" ∨ req.intent = "" ∨ req.persona = ""))
    (hmiss : (cacheLookup env.now cache (cacheKey req)).1 = none) :
    (handleGenerate env req cache).1 =
      { httpStatus := 200, success := true, tags := FALLBACK_TAGS.take 7,
        groups := none, fallback := true,
        message := some "Gemini API not configured" } ∧
    (handleGenerate env req cache).1.tags.length = REQUIRED_COUNT := by
  rw [handleGenerate_miss env req cache hvalid hmiss]
  have h1 : (generateCore env req (cacheLookup env.now cache (cacheKey req)).2).1 =
      staticFallbackResponse "Gemini API not configured" := by
    simp [generateCore, hcfg]
  rw [h1]
  exact ⟨rfl, rfl⟩

/-- C4 witness: the unconfigured response at a concrete request. -/
theorem c4_unconfigured_static_witness :
    (handleGenerate
        { geminiConfigured := false, openaiConfigured := false,
          tier1 := CallResult.err ⟨none, "no"⟩, tier2 := CallResult.err ⟨none, "no"⟩,
          tier3 := CallResult.err ⟨none, "no"⟩, parseJson := fun _ => none, now := 0 }
        ⟨"Photosynthesis", "learn", "Students", 1, [], []⟩ []).1 =
      { httpStatus := 200, success := true, tags := FALLBACK_TAGS.take 7,
        groups := none, fallback := true,
        message := some "Gemini API not configured" } :=
  (c4_unconfigured_static
      { geminiConfigured := false, openaiConfigured := false,
        tier1 := CallResult.err ⟨none, "no"⟩, tier2 := CallResult.err ⟨none, "no"⟩,
        tier3 := CallResult.err ⟨none, "no"⟩, parseJson := fun _ => none, now := 0 }
      ⟨"Photosynthesis", "learn", "Students", 1, [], []⟩ []
      rfl (by decide) rfl).1

/-- C10 counterexample: a request that fails generation after the lookup
lazily deleted an expired entry under its key leaves the cache different
from how it was before the request, refuting the exact-preservation claim. -/
theorem c10_cache_untouched_counterexample :
    (handleGenerate
        { geminiConfigured := true, openaiConfigured := false,
          tier1 := CallResult.err ⟨some 401, "API key not valid"⟩,
          tier2 := CallResult.ok (some "payload"),
          tier3 := CallResult.err ⟨none, "unused"⟩,
          parseJson := fun _ => none, now := CACHE_TTL_MS }
        ⟨"Photosynthesis", "learn", "Students", 1, [], []⟩
        [(cacheKey ⟨"Photosynthesis", "learn", "Students", 1, [], []⟩,
          ⟨staticFallbackResponse "old", 0⟩)]).1.fallback = true ∧
    (handleGenerate
        { geminiConfigured := true, openaiConfigured := false,
          tier1 := CallResult.err ⟨some 401, "API key not valid"⟩,
          tier2 := CallResult.ok (some "payload"),
          tier3 := CallResult.err ⟨none, "unused"⟩,
          parseJson := fun _ => none, now := CACHE_TTL_MS }
        ⟨"Photosynthesis", "learn", "Students", 1, [], []⟩
        [(cacheKey ⟨"Photosynthesis", "learn", "Students", 1, [], []⟩,
          ⟨staticFallbackResponse "old", 0⟩)]).2 ≠
      [(cacheKey ⟨"Photosynthesis", "learn", "Students", 1, [], []⟩,
        ⟨staticFallbackResponse "old", 0⟩)] := by
  exact ⟨rfl, by decide⟩

/-- C10 amended: on a valid, cache-missing request whose generation fails
(no key, chain failure, or unparseable output) the final cache equals the
cache as the initial lookup left it — no write occurs, so failure and
fallback responses are never stored; only the lazy deletion of an expired
entry under the key of the request itself can have changed the cache. -/
theorem c10_no_cache_write_on_failure (env : GenEnv) (req : GenRequest)
    (cache : Cache GenResponse)
    (hvalid : ¬(req.topic = "" ∨ req.intent = "" ∨ req.persona = ""))
    (hmiss : (cacheLookup env.now cache (cacheKey req)).1 = none)
    (hfail : env.geminiConfigured = false ∨
      (∃ e, (generateWithFallback env.openaiConfigured env.tier1 env.tier2 env.tier3).outcome =
          Except.error e) ∨
      (∃ v, (generateWithFallback env.openaiConfigured env.tier1 env.tier2 env.tier3).outcome =
          Except.ok v ∧ parseChainValue env.parseJson v = none)) :
    (handleGenerate env req cache).2 = (cacheLookup env.now cache (cacheKey req)).2 := by
  rw [handleGenerate_miss env req cache hvalid hmiss]
  rcases hfail with hcfg | ⟨e, houtcome⟩ | ⟨v, houtcome, hp⟩
  · simp [generateCore, hcfg]
  · cases hcfg : env.geminiConfigured with
    | false => simp [generateCore, hcfg]
    | true => simp [generateCore, hcfg, houtcome]
  · cases hcfg : env.geminiConfigured with
    | false => simp [generateCore, hcfg]
    | true => simp [generateCore, hcfg, houtcome, hp]

/-- C10 amended witness: a failed concrete request writes nothing. -/
theorem c10_no_cache_write_on_failure_witness :
    (handleGenerate
        { geminiConfigured := false, openaiConfigured := false,
          tier1 := CallResult.err ⟨none, "no"⟩, tier2 := CallResult.err ⟨none, "no"⟩,
          tier3 := CallResult.err ⟨none, "no"⟩, parseJson := fun _ => none, now := 0 }
        ⟨"Photosynthesis", "learn", "Students", 1, [], []⟩ []).2 =
      (cacheLookup 0 ([] : Cache GenResponse)
        (cacheKey ⟨"Photosynthesis", "learn", "Students", 1, [], []⟩)).2 :=
  c10_no_cache_write_on_failure _ _ _ (by decide) rfl (Or.inl rfl)

end BetterAskPrompt
